import Mathlib

/-!
Shallow embedding of the askyourdoc medical analysis core
(knowledge_base.py and health_analyzer.py) together with theorems
checking the natural-language specification against it.

Python strings are modelled as Lean String / List Char, Python floats as
rationals, Python dicts as insertion-ordered association lists with
first-match lookup (dictionaries never hold duplicate keys), and fallible
Python code (try/except) as Option-valued functions.
-/

/-! ## Python string primitives -/

/-- The whitespace characters stripped and split on by Python str.strip()
and str.split() (the ASCII subset; the source data never holds the rarer
Unicode space characters). -/
def pySpace (c : Char) : Bool :=
  c = ' ' || c = '\t' || c = '\n' || c = '\r' || c = '\x0b' || c = '\x0c'

/-- Python str.strip(chars): drop characters satisfying p from both ends. -/
def pyStrip (p : Char → Bool) (l : List Char) : List Char :=
  ((l.dropWhile p).reverse.dropWhile p).reverse

/-- Python str.split(sep) generalised to a predicate on the separator:
splits into the (possibly empty) segments between separator characters,
so the result always has one more segment than there are separators. -/
def splitOnPred (p : Char → Bool) : List Char → List (List Char)
  | [] => [[]]
  | c :: cs =>
    match splitOnPred p cs with
    | [] => [[c]]
    | s :: ss => if p c then [] :: s :: ss else (c :: s) :: ss

/-- Python str.split(sep) for a one-character separator. -/
def splitOnChar (sep : Char) (l : List Char) : List (List Char) :=
  splitOnPred (fun c => c = sep) l

/-- Python str.split() with no argument: whitespace-separated tokens,
empty tokens discarded. -/
def wsTokens (l : List Char) : List (List Char) :=
  (splitOnPred pySpace l).filter (fun s => s ≠ [])

/-- Numeric value of a digit string (most significant digit first). -/
def digitsVal (ds : List Char) : ℕ :=
  ds.foldl (fun a c => 10 * a + (c.toNat - 48)) 0

/-- Unsigned Python float literal without exponent:
digits [. digits] or . digits, at least one digit in total. -/
def parseUnsignedDec (l : List Char) : Option ℚ :=
  let intPart := l.takeWhile Char.isDigit
  let rest := l.dropWhile Char.isDigit
  match rest with
  | [] => if intPart = [] then none else some (digitsVal intPart : ℚ)
  | '.' :: frac =>
    if frac.all Char.isDigit && (intPart ≠ [] || frac ≠ []) then
      some ((digitsVal intPart : ℚ) + (digitsVal frac : ℚ) / (10 : ℚ) ^ frac.length)
    else none
  | _ => none

/-- The exponent part of a Python float literal (after the e or E). -/
def parseExpPart (l : List Char) : Option ℤ :=
  match l with
  | '+' :: ds => if ds ≠ [] && ds.all Char.isDigit then some (digitsVal ds : ℤ) else none
  | '-' :: ds => if ds ≠ [] && ds.all Char.isDigit then some (-(digitsVal ds : ℤ)) else none
  | ds => if ds ≠ [] && ds.all Char.isDigit then some (digitsVal ds : ℤ) else none

/-- Python float(s) on an already-whitespace-free token, as an exact
rational: optional sign, decimal mantissa, optional e/E exponent.
(The inf/nan words and digit-group underscores accepted by Python never
occur in the reference-range data and are modelled as parse failures.)
none models the ValueError raised on a malformed literal. -/
def pyFloat (l : List Char) : Option ℚ :=
  let signBody : Bool × List Char :=
    match l with
    | '+' :: r => (false, r)
    | '-' :: r => (true, r)
    | r => (false, r)
  let mant := signBody.2.takeWhile (fun c => c ≠ 'e' && c ≠ 'E')
  let magnitude : Option ℚ :=
    match signBody.2.dropWhile (fun c => c ≠ 'e' && c ≠ 'E') with
    | [] => parseUnsignedDec mant
    | _ :: expPart =>
      (parseUnsignedDec mant).bind fun m =>
        (parseExpPart expPart).map fun e => m * (10 : ℚ) ^ e
  if signBody.1 then magnitude.map (fun m => -m) else magnitude

/-- Python str.lower() (ASCII case folding suffices for the fixed keyword
tables of the source). -/
def pyLower (s : String) : String :=
  String.mk (s.data.map Char.toLower)

/-- Rendering of a numeric value inside a Python f-string.  Python's exact
float repr is immaterial to every claim (no claim inspects the rendered
digits), so the value is rendered as numerator/denominator. -/
def pyStr (q : ℚ) : String :=
  toString q.num ++ "/" ++ toString q.den

/-! ## Python dict model: insertion-ordered association lists.
Lookup and membership both go through find?, so they agree with each
other exactly as dict indexing agrees with the in operator. -/

/-- d[k] / d.get(k): value at key k. -/
def dget? {α : Type} (d : List (String × α)) (k : String) : Option α :=
  (d.find? (fun kv => kv.1 == k)).map (fun kv => kv.2)

/-- k in d. -/
def dmem {α : Type} (d : List (String × α)) (k : String) : Bool :=
  (d.find? (fun kv => kv.1 == k)).isSome

/-- d[k] = v: replace the value at an existing key in place (Python dicts
keep the original insertion position), else append. -/
def dset {α : Type} (d : List (String × α)) (k : String) (v : α) : List (String × α) :=
  if d.any (fun kv => kv.1 == k) then
    d.map (fun kv => if kv.1 == k then (k, v) else kv)
  else d ++ [(k, v)]

/-! ## knowledge_base.py : MedicalKnowledgeBase._classify_value -/

/-- The threshold the source extracts in the first branch of
_classify_value: float(range_info.split(lt)[1].split()[0]); none models
the IndexError/ValueError caught by the surrounding try/except. -/
def ltThreshold? (l : List Char) : Option ℚ :=
  (((splitOnChar '<' l)[1]?).bind (fun seg => (wsTokens seg).head?)).bind pyFloat

/-- The threshold extracted in the second branch of _classify_value:
float(range_info.split(gt)[1].split()[0]). -/
def gtThreshold? (l : List Char) : Option ℚ :=
  (((splitOnChar '>' l)[1]?).bind (fun seg => (wsTokens seg).head?)).bind pyFloat

/-- The (low, high) pair extracted in the dash branch of _classify_value:
exactly two dash-separated parts, low = float(parts[0].split()[-1]),
high = float(parts[1].split()[0]). -/
def rangeBounds? (l : List Char) : Option (ℚ × ℚ) :=
  match splitOnChar '-' l with
  | [p0, p1] =>
    ((wsTokens p0).getLast?.bind pyFloat).bind fun lo =>
      ((wsTokens p1).head?.bind pyFloat).map fun hi => (lo, hi)
  | _ => none

/-- MedicalKnowledgeBase._classify_value(value, range_info): classify a
value against a free-form reference-range descriptor.  The try/except
that swallows every parse error becomes the none branches. -/
def classify_value (value : ℚ) (range_info : String) : String :=
  let l := range_info.data
  if l.contains '<' then
    match ltThreshold? l with
    | some t => if t ≤ value then "High" else "Normal"
    | none => "Unknown"
  else if l.contains '>' then
    match gtThreshold? l with
    | some t => if value ≤ t then "Low" else "Normal"
    | none => "Unknown"
  else if l.contains '-' then
    match rangeBounds? l with
    | some lohi => if value < lohi.1 then "Low"
                   else if lohi.2 < value then "High" else "Normal"
    | none => "Unknown"
  else "Unknown"

/-! ## knowledge_base.py : reference-range ingestion -/

/-- One step of MedicalKnowledgeBase._parse_reference_ranges: a line is
recorded iff it contains both a colon and a double quote; the key is the
text before the first colon (whitespace- then quote-stripped), the value
the text after it (whitespace- then quote/comma-stripped). -/
def parseLine? (line : List Char) : Option (String × String) :=
  if line.contains ':' && line.contains '"' then
    some (String.mk (pyStrip (fun c => c = '"') (pyStrip pySpace (line.takeWhile (fun c => c ≠ ':')))),
          String.mk (pyStrip (fun c => c = '"' || c = ',') (pyStrip pySpace ((line.dropWhile (fun c => c ≠ ':')).drop 1))))
  else none

/-- MedicalKnowledgeBase._parse_reference_ranges(content): fold the lines
of the source text into the reference_ranges dict (d0 is the dict's prior
contents, empty on a fresh instance). -/
def parse_reference_ranges (d0 : List (String × String)) (content : String) : List (String × String) :=
  (splitOnChar '\n' content.data).foldl
    (fun d line =>
      match parseLine? line with
      | some kv => dset d kv.1 kv.2
      | none => d)
    d0

/-- The (key, value) records of the lines of a reference-range source, in
line order, non-matching lines dropped (the sequence of dict writes that
_parse_reference_ranges performs). -/
def lineRecords (content : String) : List (String × String) :=
  (splitOnChar '\n' content.data).filterMap parseLine?

/-- MedicalKnowledgeBase.get_biomarker_reference_range restricted to the
reference_ranges dict it reads. -/
def get_biomarker_reference_range (reference_ranges : List (String × String)) (biomarker : String) : Option String :=
  dget? reference_ranges biomarker

/-! ## knowledge_base.py : corpus, vector index and retrieval -/

/-- One entry of knowledge_texts: the indexed sentence plus its metadata
tags (the Python dicts carry a kind-dependent subset of these keys; the
ones no claim reads default to the empty string; type is spelled ktype
because type is reserved in Lean). -/
structure KnowledgeItem where
  text : String
  ktype : String := ""
  biomarker : String := ""
  condition : String := ""
  source : String := ""
deriving Repr, DecidableEq

/-- The MedicalKnowledgeBase state the claims touch.  The embedding model
and the FAISS index over the L2-normalised corpus embeddings are external
capabilities; their composition which maps a query string to the vector
of inner-product (cosine) scores, one score per indexed corpus item, is
kept abstract inside vector_index.  A field holds none exactly when the
corresponding Python attribute is None. -/
structure MedicalKnowledgeBase where
  reference_ranges : List (String × String) := []
  knowledge_texts : List KnowledgeItem := []
  embedding_model : Option Unit := none
  vector_index : Option (String → List ℚ) := none

/-- The score FAISS reports for padding entries of an inner-product
search that has fewer indexed vectors than requested results (the most
negative float; every genuine cosine score exceeds it). -/
def faissPadScore : ℚ := -340282346638528859811704183484516925440

/-- The indexed scores paired with their corpus positions. -/
def enumFrom : ℤ → List ℚ → List (ℚ × ℤ)
  | _, [] => []
  | i, s :: ss => (s, i) :: enumFrom (i + 1) ss

/-- Insert into a list sorted by non-increasing score, before the first
strictly smaller score (stable: equal scores keep insertion order). -/
def insertDesc (x : ℚ × ℤ) : List (ℚ × ℤ) → List (ℚ × ℤ)
  | [] => [x]
  | y :: ys => if y.1 ≤ x.1 then x :: y :: ys else y :: insertDesc x ys

/-- Sort score/index pairs by non-increasing score, ties by corpus order. -/
def sortDesc (l : List (ℚ × ℤ)) : List (ℚ × ℤ) :=
  l.foldr insertDesc []

/-- Modelled from the documented behaviour of faiss.IndexFlatIP.search
(external library, not part of this repository): returns exactly k
(score, label) pairs per query, the indexed items by decreasing score
first, then, when fewer than k vectors are indexed, padding entries with
label -1 and the minimal score. -/
def faissSearch (scores : List ℚ) (k : ℕ) : List (ℚ × ℤ) :=
  let top := (sortDesc (enumFrom 0 scores)).take k
  top ++ List.replicate (k - top.length) (faissPadScore, -1)

/-- Python list indexing l[i]: negative i counts from the end; none
models the IndexError on an out-of-range index. -/
def pyIndex {α : Type} (l : List α) (i : ℤ) : Option α :=
  if 0 ≤ i then l[i.toNat]?
  else if i.natAbs ≤ l.length then l[l.length - i.natAbs]?
  else none

/-- MedicalKnowledgeBase.retrieve_contextual_knowledge(query, top_k): []
before the index or model exists; otherwise every FAISS pair whose label
passes the idx < len(knowledge_texts) guard becomes a result carrying the
looked-up item and its relevance_score (modelled as an item/score pair). -/
def retrieve_contextual_knowledge (kb : MedicalKnowledgeBase) (query : String) (top_k : ℕ) : List (KnowledgeItem × ℚ) :=
  match kb.vector_index, kb.embedding_model with
  | some idx, some _ =>
    (faissSearch (idx query) top_k).filterMap
      (fun si =>
        if si.2 < (kb.knowledge_texts.length : ℤ) then
          (pyIndex kb.knowledge_texts si.2).map (fun item => (item, si.1))
        else none)
  | _, _ => []

/-! ## health_analyzer.py : data model of the report -/

/-- The per-biomarker contextual knowledge dict built in step 1 of the
analysis (biomarker name, or the literal key general, to retrieved
item/score pairs). -/
abbrev Ctx := List (String × List (KnowledgeItem × ℚ))

/-- One entry of pillar 1 (keyed by biomarker name in the enclosing dict). -/
structure BiomarkerEntry where
  value : ℚ
  reference_range : Option String
  status : String
  interpretation : String
  contextual_insights : List (KnowledgeItem × ℚ)
deriving Repr, DecidableEq

/-- Pillar 1 of the report. -/
structure Pillar1 where
  title : String
  biomarkers : List (String × BiomarkerEntry)
deriving Repr, DecidableEq

/-- Result of HealthAnalyzer._analyze_symptoms.  When no symptoms survive
strip() the Python dict carries only symptoms_provided=False; the other
two fields then default to empty here. -/
structure SymptomAnalysis where
  symptoms_provided : Bool
  raw_symptoms : String := ""
  detected_categories : List String := []
deriving Repr, DecidableEq

/-- One correlation record of pillar 2. -/
structure Correlation where
  biomarker : String
  value : ℚ
  correlated_symptoms : List String
  explanation : String
deriving Repr, DecidableEq

/-- Pillar 2 of the report; note holds some text exactly when the source
adds the note key to the dict. -/
structure Pillar2 where
  title : String
  correlations : List Correlation
  symptom_analysis : SymptomAnalysis
  note : Option String := none
deriving Repr, DecidableEq

/-- One risk assessor result in pillar 3. -/
structure RiskAssessment where
  condition : String
  risk_level : String
  risk_factors : List String
  contextual_insights : List (KnowledgeItem × ℚ)
deriving Repr, DecidableEq

/-- Pillar 3 of the report. -/
structure Pillar3 where
  title : String
  risk_assessments : List RiskAssessment
  overall_risk_level : String
deriving Repr, DecidableEq

/-- Pillar 4 of the report. -/
structure Pillar4 where
  title : String
  immediate_actions : List String
  lifestyle_recommendations : List String
  monitoring_recommendations : List String
  medical_consultation_required : Bool
deriving Repr, DecidableEq

/-- HealthAnalyzer.analyze_health_report's result dict (the constant
disclaimer string and the wall-clock timestamp are carried along verbatim
by the source and are not modelled; no claim reads them). -/
structure AnalysisReport where
  pillar_1_biomarker_interpretation : Pillar1
  pillar_2_symptom_correlation : Pillar2
  pillar_3_predictive_insights : Pillar3
  pillar_4_actionable_recommendations : Pillar4
  contextual_knowledge_used : Ctx
deriving Repr, DecidableEq

/-! ## health_analyzer.py : pillar 1 -/

/-- HealthAnalyzer._classify_biomarker_status: Unknown when the range is
absent or falsy (the empty string), else the knowledge-base classifier. -/
def classify_biomarker_status (value : ℚ) (reference_range : Option String) : String :=
  match reference_range with
  | none => "Unknown"
  | some r => if r = "" then "Unknown" else classify_value value r

/-- HealthAnalyzer._generate_biomarker_interpretation: the base sentence,
extended by the first two retrieved insights according to their kind. -/
def generate_biomarker_interpretation (biomarker : String) (value : ℚ) (status : String)
    (knowledge : List (KnowledgeItem × ℚ)) : String :=
  (knowledge.take 2).foldl
    (fun acc ins =>
      if ins.1.ktype = "dataset_insight" then acc ++ " " ++ ins.1.text
      else if ins.1.ktype = "abnormality_mapping" then
        acc ++ " This pattern is associated with " ++ ins.1.condition ++ "."
      else acc)
    ("Your " ++ biomarker ++ " level is " ++ pyStr value ++ ", which is classified as " ++ status ++ ".")

/-- HealthAnalyzer._analyze_biomarkers (pillar 1). -/
def analyze_biomarkers (kb : MedicalKnowledgeBase) (biomarker_data : List (String × ℚ)) (ctx : Ctx) : Pillar1 :=
  { title := "Interpretation of Key Biomarkers"
    biomarkers := biomarker_data.map fun bv =>
      let rr := get_biomarker_reference_range kb.reference_ranges bv.1
      let status := classify_biomarker_status bv.2 rr
      let kn := (dget? ctx bv.1).getD []
      (bv.1, { value := bv.2
               reference_range := rr
               status := status
               interpretation := generate_biomarker_interpretation bv.1 bv.2 status kn
               contextual_insights := kn }) }

/-! ## health_analyzer.py : pillar 2 -/

/-- The six fixed symptom-category keyword lists of
HealthAnalyzer._analyze_symptoms, in source order. -/
def common_symptoms : List (String × List String) :=
  [("fatigue", ["tired", "fatigue", "exhausted", "weak"]),
   ("weight_changes", ["weight", "gain", "loss", "obese"]),
   ("mood_changes", ["depressed", "anxious", "mood", "irritable"]),
   ("digestive_issues", ["nausea", "vomiting", "diarrhea", "constipation"]),
   ("cardiovascular", ["chest", "pain", "heart", "palpitations"]),
   ("neurological", ["headache", "dizziness", "confusion", "memory"])]

/-- The Python substring operator (kw in s) on character lists. -/
def isSubstr (needle : List Char) : List Char → Bool
  | [] => needle.isEmpty
  | c :: cs => needle.isPrefixOf (c :: cs) || isSubstr needle cs

/-- The detected categories of HealthAnalyzer._analyze_symptoms: a
category fires when any of its keywords occurs as a substring of the
lowercased symptom text (the source builds a tokenized word list too but
never uses it; the membership test is the Python substring operator). -/
def detectedCategories (user_symptoms : String) : List String :=
  common_symptoms.filterMap fun ck =>
    if ck.2.any (fun kw => isSubstr kw.data (pyLower user_symptoms).data) then some ck.1
    else none

/-- HealthAnalyzer._analyze_symptoms. -/
def analyze_symptoms (user_symptoms : String) : SymptomAnalysis :=
  if pyStrip pySpace user_symptoms.data = [] then { symptoms_provided := false }
  else { symptoms_provided := true
         raw_symptoms := user_symptoms
         detected_categories := detectedCategories user_symptoms }

/-- The fixed biomarker-to-symptom-category table of
HealthAnalyzer._find_symptom_biomarker_correlation. -/
def correlationsTable : List (String × List String) :=
  [("tsh", ["fatigue", "weight_changes", "mood_changes"]),
   ("glucose", ["fatigue", "weight_changes", "digestive_issues"]),
   ("hba1c", ["fatigue", "weight_changes"]),
   ("total_cholesterol", ["cardiovascular"]),
   ("ldl", ["cardiovascular"]),
   ("crp", ["fatigue", "cardiovascular"])]

/-- HealthAnalyzer._find_symptom_biomarker_correlation. -/
def find_symptom_biomarker_correlation (biomarker : String) (value : ℚ) (user_symptoms : String)
    (_knowledge : List (KnowledgeItem × ℚ)) : Option Correlation :=
  match dget? correlationsTable biomarker with
  | some cats =>
    let symptom_categories := (analyze_symptoms user_symptoms).detected_categories
    let matching := symptom_categories.filter (fun cat => cats.contains cat)
    if matching ≠ [] then
      some { biomarker := biomarker
             value := value
             correlated_symptoms := matching
             explanation := "Your " ++ biomarker ++ " level of " ++ pyStr value ++
               " may be related to your reported symptoms: " ++ String.intercalate ", " matching }
    else none
  | none => none

/-- HealthAnalyzer._correlate_symptoms_biomarkers (pillar 2). -/
def correlate_symptoms_biomarkers (biomarker_data : List (String × ℚ)) (user_symptoms : String) (ctx : Ctx) : Pillar2 :=
  let base : Pillar2 :=
    { title := "Correlation Between Symptoms and Biomarker Trends"
      correlations := []
      symptom_analysis := analyze_symptoms user_symptoms }
  if pyStrip pySpace user_symptoms.data = [] then
    { base with note := some "No symptoms provided for correlation analysis" }
  else
    { base with correlations := biomarker_data.filterMap fun bv =>
        find_symptom_biomarker_correlation bv.1 bv.2 user_symptoms ((dget? ctx bv.1).getD []) }

/-! ## health_analyzer.py : pillar 3 risk assessors -/

/-- HealthAnalyzer._assess_diabetes_risk: risk_level starts low and is
reassigned by each biomarker band that fires, in source order (glucose
first, then hba1c), so a later assignment overwrites an earlier one. -/
def assess_diabetes_risk (biomarker_data : List (String × ℚ)) (ctx : Ctx) : Option RiskAssessment :=
  let st0 : List String × String := ([], "low")
  let st1 : List String × String :=
    match dget? biomarker_data "glucose" with
    | some glucose =>
      if 126 ≤ glucose then
        (st0.1 ++ ["Fasting glucose " ++ pyStr glucose ++ " mg/dL indicates diabetes"], "high")
      else if 100 ≤ glucose then
        (st0.1 ++ ["Fasting glucose " ++ pyStr glucose ++ " mg/dL indicates prediabetes"], "moderate")
      else st0
    | none => st0
  let st2 : List String × String :=
    match dget? biomarker_data "hba1c" with
    | some hba1c =>
      if 6.5 ≤ hba1c then
        (st1.1 ++ ["HbA1c " ++ pyStr hba1c ++ "% indicates diabetes"], "high")
      else if 5.7 ≤ hba1c then
        (st1.1 ++ ["HbA1c " ++ pyStr hba1c ++ "% indicates prediabetes"], "moderate")
      else st1
    | none => st1
  if st2.1 ≠ [] then
    some { condition := "Diabetes/Pre-diabetes"
           risk_level := st2.2
           risk_factors := st2.1
           contextual_insights := ((dget? ctx "general").getD []).take 2 }
  else none

/-- HealthAnalyzer._assess_cardiovascular_risk: every trigger assigns the
same moderate level. -/
def assess_cardiovascular_risk (biomarker_data : List (String × ℚ)) (ctx : Ctx) : Option RiskAssessment :=
  let st0 : List String × String := ([], "low")
  let st1 : List String × String :=
    match dget? biomarker_data "total_cholesterol" with
    | some tc =>
      if 240 ≤ tc then (st0.1 ++ ["Total cholesterol " ++ pyStr tc ++ " mg/dL is high"], "moderate")
      else st0
    | none => st0
  let st2 : List String × String :=
    match dget? biomarker_data "ldl" with
    | some ldl =>
      if 160 ≤ ldl then (st1.1 ++ ["LDL cholesterol " ++ pyStr ldl ++ " mg/dL is high"], "moderate")
      else st1
    | none => st1
  let st3 : List String × String :=
    match dget? biomarker_data "hdl" with
    | some hdl =>
      if hdl < 40 then (st2.1 ++ ["HDL cholesterol " ++ pyStr hdl ++ " mg/dL is low"], "moderate")
      else st2
    | none => st2
  if st3.1 ≠ [] then
    some { condition := "Cardiovascular Disease"
           risk_level := st3.2
           risk_factors := st3.1
           contextual_insights := ((dget? ctx "general").getD []).take 2 }
  else none

/-- HealthAnalyzer._assess_thyroid_risk: one elif chain on tsh. -/
def assess_thyroid_risk (biomarker_data : List (String × ℚ)) (ctx : Ctx) : Option RiskAssessment :=
  match dget? biomarker_data "tsh" with
  | some tsh =>
    let st : List String × String :=
      if 10 < tsh then (["TSH " ++ pyStr tsh ++ " mIU/L indicates overt hypothyroidism"], "high")
      else if 4.5 < tsh then (["TSH " ++ pyStr tsh ++ " mIU/L indicates subclinical hypothyroidism"], "moderate")
      else if tsh < 0.4 then (["TSH " ++ pyStr tsh ++ " mIU/L indicates possible hyperthyroidism"], "moderate")
      else ([], "low")
    if st.1 ≠ [] then
      some { condition := "Thyroid Dysfunction"
             risk_level := st.2
             risk_factors := st.1
             contextual_insights := ((dget? ctx "tsh").getD []).take 2 }
    else none
  | none => none

/-- HealthAnalyzer._assess_inflammation_risk. -/
def assess_inflammation_risk (biomarker_data : List (String × ℚ)) (ctx : Ctx) : Option RiskAssessment :=
  let st0 : List String × String := ([], "low")
  let st1 : List String × String :=
    match dget? biomarker_data "crp" with
    | some crp =>
      if 3.0 < crp then (st0.1 ++ ["CRP " ++ pyStr crp ++ " mg/L indicates elevated inflammation"], "moderate")
      else st0
    | none => st0
  let st2 : List String × String :=
    match dget? biomarker_data "esr" with
    | some esr =>
      if 20 < esr then (st1.1 ++ ["ESR " ++ pyStr esr ++ " mm/hr indicates elevated inflammation"], "moderate")
      else st1
    | none => st1
  if st2.1 ≠ [] then
    some { condition := "Inflammation"
           risk_level := st2.2
           risk_factors := st2.1
           contextual_insights := ((dget? ctx "general").getD []).take 2 }
  else none

/-- HealthAnalyzer._calculate_overall_risk_level. -/
def calculate_overall_risk_level (risks : List RiskAssessment) : String :=
  if risks.isEmpty then "low"
  else if risks.any (fun r => r.risk_level == "high") then "high"
  else if risks.any (fun r => r.risk_level == "moderate") then "moderate"
  else "low"

/-- HealthAnalyzer._generate_predictive_insights (pillar 3): each assessor
runs only when one of its biomarkers is present, and contributes an entry
only when it returns one. -/
def generate_predictive_insights (biomarker_data : List (String × ℚ)) (ctx : Ctx) : Pillar3 :=
  let risks0 : List RiskAssessment := []
  let risks1 :=
    if dmem biomarker_data "glucose" || dmem biomarker_data "hba1c" then
      match assess_diabetes_risk biomarker_data ctx with
      | some r => risks0 ++ [r]
      | none => risks0
    else risks0
  let risks2 :=
    if ["total_cholesterol", "ldl", "hdl", "triglycerides"].any (fun bm => dmem biomarker_data bm) then
      match assess_cardiovascular_risk biomarker_data ctx with
      | some r => risks1 ++ [r]
      | none => risks1
    else risks1
  let risks3 :=
    if dmem biomarker_data "tsh" then
      match assess_thyroid_risk biomarker_data ctx with
      | some r => risks2 ++ [r]
      | none => risks2
    else risks2
  let risks4 :=
    if ["crp", "esr"].any (fun bm => dmem biomarker_data bm) then
      match assess_inflammation_risk biomarker_data ctx with
      | some r => risks3 ++ [r]
      | none => risks3
    else risks3
  { title := "Predictive Insights on Potential Health Risks"
    risk_assessments := risks4
    overall_risk_level := calculate_overall_risk_level risks4 }

/-! ## health_analyzer.py : pillar 4 -/

/-- The fixed critical_thresholds table of
HealthAnalyzer._identify_critical_findings. -/
def critical_thresholds : List (String × ℚ) :=
  [("glucose", 300), ("tsh", 20), ("creatinine", 3.0), ("crp", 10.0)]

/-- The immediate-action string emitted for one critical finding. -/
def criticalMsg (biomarker : String) (value : ℚ) : String :=
  "CRITICAL: " ++ biomarker ++ " level of " ++ pyStr value ++ " requires immediate medical attention"

/-- The per-biomarker body of the loop in
HealthAnalyzer._identify_critical_findings: a message when the biomarker
sits in the threshold table at or above its threshold. -/
def criticalFinding? (bv : String × ℚ) : Option String :=
  match dget? critical_thresholds bv.1 with
  | some t => if t ≤ bv.2 then some (criticalMsg bv.1 bv.2) else none
  | none => none

/-- HealthAnalyzer._identify_critical_findings: one message per input
biomarker that sits in the threshold table at or above its threshold,
in input order. -/
def identify_critical_findings (biomarker_data : List (String × ℚ)) : List String :=
  biomarker_data.filterMap criticalFinding?

/-- HealthAnalyzer._generate_lifestyle_recommendations: five fixed general
items, then presence-triggered additions (the lifestyle text parameter is
accepted and ignored by the source). -/
def generate_lifestyle_recommendations (biomarker_data : List (String × ℚ)) (_user_lifestyle : String) (_ctx : Ctx) : List String :=
  ["Maintain a balanced diet rich in fruits, vegetables, and whole grains",
   "Engage in regular physical activity (at least 150 minutes per week)",
   "Maintain a healthy weight",
   "Avoid smoking and limit alcohol consumption",
   "Get adequate sleep (7-9 hours per night)"]
  ++ (if dmem biomarker_data "glucose" || dmem biomarker_data "hba1c" then
        ["Limit refined carbohydrates and sugary foods",
         "Monitor carbohydrate intake and consider portion control"]
      else [])
  ++ (if ["total_cholesterol", "ldl", "hdl", "triglycerides"].any (fun bm => dmem biomarker_data bm) then
        ["Reduce saturated and trans fats in your diet",
         "Increase intake of omega-3 fatty acids",
         "Consider soluble fiber supplements"]
      else [])
  ++ (if dmem biomarker_data "tsh" then
        ["Ensure adequate iodine intake through diet",
         "Consider selenium-rich foods (Brazil nuts, fish)"]
      else [])
  ++ (if dmem biomarker_data "vitamin_d" then
        ["Get regular sun exposure (15-30 minutes daily)",
         "Consider vitamin D supplementation if deficient"]
      else [])

/-- HealthAnalyzer._generate_monitoring_recommendations: two fixed items,
then presence-triggered additions. -/
def generate_monitoring_recommendations (biomarker_data : List (String × ℚ)) (_ctx : Ctx) : List String :=
  ["Schedule regular follow-up lab tests as recommended by your healthcare provider",
   "Keep a record of your lab results to track trends over time"]
  ++ (if dmem biomarker_data "glucose" || dmem biomarker_data "hba1c" then
        ["Monitor blood glucose levels regularly if recommended by your doctor",
         "Consider HbA1c testing every 3-6 months"]
      else [])
  ++ (if ["total_cholesterol", "ldl", "hdl", "triglycerides"].any (fun bm => dmem biomarker_data bm) then
        ["Monitor lipid profile every 6-12 months"]
      else [])
  ++ (if dmem biomarker_data "tsh" then
        ["Monitor thyroid function tests every 6-12 months"]
      else [])

/-- HealthAnalyzer._generate_recommendations (pillar 4): the consultation
flag is raised exactly when a critical finding exists (the symptoms
parameter is accepted and ignored by the source). -/
def generate_recommendations (biomarker_data : List (String × ℚ)) (_user_symptoms user_lifestyle : String) (ctx : Ctx) : Pillar4 :=
  let critical_findings := identify_critical_findings biomarker_data
  { title := "Clear, Actionable Recommendations"
    immediate_actions := critical_findings
    lifestyle_recommendations := generate_lifestyle_recommendations biomarker_data user_lifestyle ctx
    monitoring_recommendations := generate_monitoring_recommendations biomarker_data ctx
    medical_consultation_required := !critical_findings.isEmpty }

/-! ## health_analyzer.py : the full pipeline -/

/-- HealthAnalyzer._retrieve_contextual_knowledge: one top-3 query per
biomarker plus the general top-5 query. -/
def retrieve_contextual_knowledge_all (kb : MedicalKnowledgeBase) (biomarker_data : List (String × ℚ)) : Ctx :=
  biomarker_data.map (fun bv =>
    (bv.1, retrieve_contextual_knowledge kb (bv.1 ++ " " ++ pyStr bv.2 ++ " biomarker analysis") 3))
  ++ [("general", retrieve_contextual_knowledge kb "health risk assessment biomarker patterns" 5)]

/-- HealthAnalyzer.analyze_health_report: the four-pillar report. -/
def analyze_health_report (kb : MedicalKnowledgeBase) (biomarker_data : List (String × ℚ))
    (user_symptoms user_lifestyle : String) : AnalysisReport :=
  let ctx := retrieve_contextual_knowledge_all kb biomarker_data
  { pillar_1_biomarker_interpretation := analyze_biomarkers kb biomarker_data ctx
    pillar_2_symptom_correlation := correlate_symptoms_biomarkers biomarker_data user_symptoms ctx
    pillar_3_predictive_insights := generate_predictive_insights biomarker_data ctx
    pillar_4_actionable_recommendations := generate_recommendations biomarker_data user_symptoms user_lifestyle ctx
    contextual_knowledge_used := ctx }

/-! ## Spec-side definitions (phrased from the claims' wording, for
stating counterexamples and amended claims) -/

/-- The glucose band named by the diabetes claim: at or above 126 is
high severity, 100 up to but excluding 126 is moderate, else no band. -/
def glucoseBand (glucose : ℚ) : Option String :=
  if 126 ≤ glucose then some "high"
  else if 100 ≤ glucose then some "moderate"
  else none

/-- The hba1c band named by the diabetes claim: at or above 6.5 is high
severity, 5.7 up to but excluding 6.5 is moderate, else no band. -/
def hba1cBand (hba1c : ℚ) : Option String :=
  if 6.5 ≤ hba1c then some "high"
  else if 5.7 ≤ hba1c then some "moderate"
  else none

/-- Severity order high over moderate over low, as an ordinal. -/
def severityRank (s : String) : ℕ :=
  if s = "high" then 2 else if s = "moderate" then 1 else 0

/-- The maximum of two severities under high over moderate over low (the
combination rule the diabetes claim asserts). -/
def maxSeverity (a b : String) : String :=
  if severityRank b ≤ severityRank a then a else b

/-- The critical-threshold breach predicate of the recommendations claim:
one of the four named biomarkers at or above its hard threshold. -/
def criticalBreach (bv : String × ℚ) : Prop :=
  (bv.1 = "glucose" ∧ 300 ≤ bv.2) ∨ (bv.1 = "tsh" ∧ 20 ≤ bv.2) ∨
  (bv.1 = "creatinine" ∧ 3.0 ≤ bv.2) ∨ (bv.1 = "crp" ∧ 10.0 ≤ bv.2)

/-- Token-based symptom detection, following the symptom claim's words: a
category fires when one of its keywords occurs as a whole whitespace token
of the lowercased symptom text. -/
def tokenDetectedCategories (user_symptoms : String) : List String :=
  common_symptoms.filterMap fun ck =>
    if ck.2.any (fun kw => (wsTokens (pyLower user_symptoms).data).contains kw.data) then some ck.1
    else none


/-- The cardiovascular trigger condition of the claim: a present
total cholesterol at or above 240, a present LDL at or above 160, or a
present HDL below 40. -/
def cvTrigger (d : List (String × ℚ)) : Prop :=
  (∃ v, dget? d "total_cholesterol" = some v ∧ 240 ≤ v) ∨
  (∃ v, dget? d "ldl" = some v ∧ 160 ≤ v) ∨
  (∃ v, dget? d "hdl" = some v ∧ v < 40)

/-! ## Helper lemmas -/

theorem splitOnChar_of_not_mem (sep : Char) (l : List Char) (h : sep ∉ l) :
    splitOnChar sep l = [l] := by
  induction l with
  | nil => rfl
  | cons c cs ih =>
    simp only [List.mem_cons, not_or] at h
    have hc : ¬ (c = sep) := fun hcc => h.1 hcc.symm
    simp only [splitOnChar, splitOnPred] at *
    rw [ih h.2]
    simp [hc]

/-- C1: classification against a reference descriptor follows the claim's
branch structure: a descriptor containing a less-than sign classifies High
exactly when the value reaches the parsed threshold and Normal otherwise;
else one containing a greater-than sign classifies Low exactly when the
value is at most the parsed threshold and Normal otherwise; else a
low-high range classifies Low below the low bound, High above the high
bound and Normal within; and whenever the applicable parse fails the
result is Unknown (the embedding is total, so no exception escapes). -/
theorem classify_value_spec (v : ℚ) (r : String) :
    ('<' ∈ r.data →
      (∀ X, ltThreshold? r.data = some X →
        classify_value v r = if X ≤ v then "High" else "Normal") ∧
      (ltThreshold? r.data = none → classify_value v r = "Unknown")) ∧
    ('<' ∉ r.data → '>' ∈ r.data →
      (∀ X, gtThreshold? r.data = some X →
        classify_value v r = if v ≤ X then "Low" else "Normal") ∧
      (gtThreshold? r.data = none → classify_value v r = "Unknown")) ∧
    ('<' ∉ r.data → '>' ∉ r.data →
      (∀ L H, rangeBounds? r.data = some (L, H) →
        classify_value v r = if v < L then "Low" else if H < v then "High" else "Normal") ∧
      (rangeBounds? r.data = none → classify_value v r = "Unknown")) := by
  refine ⟨?_, ?_, ?_⟩
  · intro h1
    refine ⟨fun X hX => ?_, fun hX => ?_⟩ <;> simp [classify_value, h1, hX]
  · intro h1 h2
    refine ⟨fun X hX => ?_, fun hX => ?_⟩ <;> simp [classify_value, h1, h2, hX]
  · intro h1 h2
    refine ⟨fun L H hLH => ?_, fun hX => ?_⟩
    · by_cases hc : '-' ∈ r.data
      · simp [classify_value, h1, h2, hc, hLH]
      · exfalso
        rw [rangeBounds?, splitOnChar_of_not_mem '-' r.data hc] at hLH
        simp at hLH
    · by_cases hc : '-' ∈ r.data
      · simp [classify_value, h1, h2, hc, hX]
      · simp [classify_value, h1, h2, hc]

/-- Witness for the classifier claim at a concrete descriptor and value. -/
theorem classify_value_spec_witness :
    ('<' ∈ "<200".data ∧ ltThreshold? "<200".data = some 200) ∧
    classify_value 250 "<200" = "High" := by
  have h := ((classify_value_spec 250 "<200").1 (by decide)).1 200 (by decide)
  rw [if_pos (by norm_num)] at h
  exact ⟨⟨by decide, by decide⟩, h⟩

/-- C7: retrieval before the vector index or the embedding model exists
returns the empty result list (and, the embedding being total, raises
nothing). -/
theorem retrieve_before_index_spec (kb : MedicalKnowledgeBase) (query : String) (top_k : ℕ)
    (h : kb.vector_index = none ∨ kb.embedding_model = none) :
    retrieve_contextual_knowledge kb query top_k = [] := by
  obtain ⟨rr, kt, em, vi⟩ := kb
  cases vi with
  | none => rfl
  | some idx =>
    cases em with
    | none => rfl
    | some u => rcases h with h | h <;> simp at h

/-- Witness: a fresh knowledge base (no index, no model) yields []. -/
theorem retrieve_before_index_spec_witness :
    retrieve_contextual_knowledge {} "glucose" 5 = [] :=
  retrieve_before_index_spec {} "glucose" 5 (Or.inl rfl)

/-- C2, failing input: over a one-item corpus, a top-2 search returns two
results, exceeding min(top_k, corpus size) = 1: the FAISS padding pair
(label -1, minimal score) passes the idx < len(knowledge_texts) guard and
Python's negative indexing resolves -1 to the last corpus item, which is
returned a second time with the padding score. -/
theorem retrieve_overcount_failing :
    (retrieve_contextual_knowledge
        { knowledge_texts := [{ text := "only item" }],
          embedding_model := some (),
          vector_index := some (fun _ => [1]) } "q" 2).length = 2 ∧
    (retrieve_contextual_knowledge
        { knowledge_texts := [{ text := "only item" }],
          embedding_model := some (),
          vector_index := some (fun _ => [1]) } "q" 2).map (fun is => is.2) =
      [1, faissPadScore] ∧
    min 2 1 = 1 := by
  refine ⟨rfl, rfl, rfl⟩

/-- C3, counterexample: glucose 126 sits in the high band and hba1c 6 in
the moderate band, so the claimed max-severity combination is high, but
the assessor reports moderate (the hba1c assignment overwrites the
glucose one). -/
theorem assess_diabetes_risk_claim_cex :
    maxSeverity ((glucoseBand 126).getD "low") ((hba1cBand 6).getD "low") = "high" ∧
    (assess_diabetes_risk [("glucose", 126), ("hba1c", 6)] []).map (fun ra => ra.risk_level) =
      some "moderate" := by
  have hg : dget? [(("glucose" : String), (126 : ℚ)), ("hba1c", 6)] "glucose" = some 126 := rfl
  have hh : dget? [(("glucose" : String), (126 : ℚ)), ("hba1c", 6)] "hba1c" = some 6 := rfl
  constructor
  · rw [glucoseBand, hba1cBand, if_pos (by norm_num), if_neg (by norm_num), if_pos (by norm_num)]
    rfl
  · rw [assess_diabetes_risk, hg, hh]
    norm_num
    exact ⟨_, ⟨by simp, rfl⟩, rfl⟩

/-- C3 amended: with both glucose and hba1c present, the assessor returns
no entry exactly when neither band fires; otherwise its risk_level is the
hba1c band's severity when that band fires and the glucose band's
otherwise (the later assignment overwrites the earlier one; severities
are not combined by maximum). -/
theorem assess_diabetes_risk_spec (d : List (String × ℚ)) (ctx : Ctx) (g h : ℚ)
    (hg : dget? d "glucose" = some g) (hh : dget? d "hba1c" = some h) :
    (assess_diabetes_risk d ctx = none ↔ glucoseBand g = none ∧ hba1cBand h = none) ∧
    (∀ ra, assess_diabetes_risk d ctx = some ra →
      ra.risk_level = (hba1cBand h).getD ((glucoseBand g).getD "low")) := by
  by_cases hg1 : (126 : ℚ) ≤ g <;> by_cases hg2 : (100 : ℚ) ≤ g <;>
    by_cases hh1 : (6.5 : ℚ) ≤ h <;> by_cases hh2 : (5.7 : ℚ) ≤ h <;>
    simp [assess_diabetes_risk, glucoseBand, hba1cBand, hg, hh, hg1, hg2, hh1, hh2]

/-- Witness for the amended diabetes-risk claim: glucose 130 (high band)
with hba1c 6 (moderate band) reports moderate. -/
theorem assess_diabetes_risk_spec_witness :
    (assess_diabetes_risk [("glucose", 130), ("hba1c", 6)] []).map (fun ra => ra.risk_level) =
      some "moderate" := by
  have h := assess_diabetes_risk_spec [("glucose", 130), ("hba1c", 6)] [] 130 6 rfl rfl
  rcases he : assess_diabetes_risk [("glucose", 130), ("hba1c", 6)] [] with _ | ra
  · exfalso
    have hb := (h.1.mp he).2
    rw [hba1cBand, if_neg (by norm_num), if_pos (by norm_num)] at hb
    exact Option.some_ne_none "moderate" hb
  · have hr := h.2 ra he
    rw [hba1cBand, if_neg (by norm_num), if_pos (by norm_num)] at hr
    simp [hr]

/-- C5: the cardiovascular assessor contributes no entry exactly when no
trigger condition holds among the present biomarkers, and any entry it
contributes carries risk_level moderate (so it never reports high). -/
theorem assess_cardiovascular_risk_spec (d : List (String × ℚ)) (ctx : Ctx) :
    (assess_cardiovascular_risk d ctx = none ↔ ¬ cvTrigger d) ∧
    (∀ ra, assess_cardiovascular_risk d ctx = some ra → ra.risk_level = "moderate") := by
  rcases htc : dget? d "total_cholesterol" with _ | tc <;>
    rcases hldl : dget? d "ldl" with _ | ldl <;>
    rcases hhdl : dget? d "hdl" with _ | hdl <;>
    simp only [assess_cardiovascular_risk, cvTrigger, htc, hldl, hhdl] <;>
    split_ifs <;>
    simp_all

/-- Witness for the cardiovascular claim: HDL 30 alone triggers a
moderate entry. -/
theorem assess_cardiovascular_risk_spec_witness :
    (assess_cardiovascular_risk [("hdl", 30)] []).map (fun ra => ra.risk_level) =
      some "moderate" := by
  have h := assess_cardiovascular_risk_spec [("hdl", 30)] []
  rcases he : assess_cardiovascular_risk [("hdl", 30)] [] with _ | ra
  · exfalso
    exact (h.1.mp he) (Or.inr (Or.inr ⟨30, rfl, by norm_num⟩))
  · simp [h.2 ra he]

theorem dget_critical_thresholds (b : String) :
    dget? critical_thresholds b =
      if b = "glucose" then some 300 else if b = "tsh" then some 20
      else if b = "creatinine" then some 3.0 else if b = "crp" then some 10.0 else none := by
  by_cases h1 : b = "glucose"
  · subst h1; rfl
  by_cases h2 : b = "tsh"
  · subst h2; rfl
  by_cases h3 : b = "creatinine"
  · subst h3; rfl
  by_cases h4 : b = "crp"
  · subst h4; rfl
  have e1 : ("glucose" == b) = false := by simp [h1]; exact fun hh => h1 hh.symm
  have e2 : ("tsh" == b) = false := by simp [h2]; exact fun hh => h2 hh.symm
  have e3 : ("creatinine" == b) = false := by simp [h3]; exact fun hh => h3 hh.symm
  have e4 : ("crp" == b) = false := by simp [h4]; exact fun hh => h4 hh.symm
  simp [dget?, critical_thresholds, List.find?, e1, e2, e3, e4, h1, h2, h3, h4]

theorem criticalFinding?_none_iff (bv : String × ℚ) :
    criticalFinding? bv = none ↔ ¬ criticalBreach bv := by
  rw [criticalFinding?, dget_critical_thresholds, criticalBreach]
  by_cases h1 : bv.1 = "glucose" <;> by_cases h2 : bv.1 = "tsh" <;>
    by_cases h3 : bv.1 = "creatinine" <;> by_cases h4 : bv.1 = "crp" <;>
    simp_all

theorem criticalFinding?_of_breach (bv : String × ℚ) (h : criticalBreach bv) :
    criticalFinding? bv = some (criticalMsg bv.1 bv.2) := by
  rw [criticalFinding?, dget_critical_thresholds]
  rcases h with ⟨h1, hv⟩ | ⟨h1, hv⟩ | ⟨h1, hv⟩ | ⟨h1, hv⟩ <;> simp_all

/-- C4: the medical-consultation flag is raised exactly when some input
biomarker named glucose, tsh, creatinine or crp reaches its critical
threshold (300, 20, 3.0, 10.0 respectively); every breaching biomarker
contributes an immediate-action entry containing its name; with no breach
the flag is false and the immediate-action list empty. -/
theorem generate_recommendations_critical_spec (d : List (String × ℚ)) (sym life : String) (ctx : Ctx) :
    ((generate_recommendations d sym life ctx).medical_consultation_required = true ↔
      ∃ bv ∈ d, criticalBreach bv) ∧
    (∀ bv ∈ d, criticalBreach bv →
      ∃ e ∈ (generate_recommendations d sym life ctx).immediate_actions, bv.1.data <:+: e.data) ∧
    ((¬ ∃ bv ∈ d, criticalBreach bv) →
      (generate_recommendations d sym life ctx).medical_consultation_required = false ∧
      (generate_recommendations d sym life ctx).immediate_actions = []) := by
  have hfind : ∀ e : List String, (!e.isEmpty) = true ↔ e ≠ [] := by
    intro e; cases e <;> simp
  have hia : (generate_recommendations d sym life ctx).immediate_actions =
      identify_critical_findings d := rfl
  have hflag : (generate_recommendations d sym life ctx).medical_consultation_required =
      !(identify_critical_findings d).isEmpty := rfl
  have hnil : identify_critical_findings d = [] ↔ ¬ ∃ bv ∈ d, criticalBreach bv := by
    rw [identify_critical_findings, List.filterMap_eq_nil_iff]
    constructor
    · rintro hall ⟨bv, hbv, hb⟩
      exact ((criticalFinding?_none_iff bv).mp (hall bv hbv)) hb
    · intro hno bv hbv
      exact (criticalFinding?_none_iff bv).mpr (fun hb => hno ⟨bv, hbv, hb⟩)
  refine ⟨?_, ?_, ?_⟩
  · rw [hflag, hfind]
    constructor
    · intro hne
      by_contra hno
      exact hne (hnil.mpr hno)
    · intro hex hn
      exact (hnil.mp hn) hex
  · intro bv hbv hb
    refine ⟨criticalMsg bv.1 bv.2,
      List.mem_filterMap.mpr ⟨bv, hbv, criticalFinding?_of_breach bv hb⟩,
      ⟨"CRITICAL: ".data,
        (" level of " ++ pyStr bv.2 ++ " requires immediate medical attention").data, ?_⟩⟩
    simp [criticalMsg, String.data_append]
  · intro hno
    have h0 := hnil.mpr hno
    rw [hflag, hia, h0]
    exact ⟨rfl, rfl⟩

/-- Witness for the critical-findings claim: glucose 305 sets the flag
and emits an action naming glucose. -/
theorem generate_recommendations_critical_spec_witness :
    (generate_recommendations [("glucose", 305)] "" "" []).medical_consultation_required = true ∧
    ∃ e ∈ (generate_recommendations [("glucose", 305)] "" "" []).immediate_actions,
      "glucose".data <:+: e.data := by
  have h := generate_recommendations_critical_spec [("glucose", 305)] "" "" []
  have hb : criticalBreach ("glucose", (305 : ℚ)) := Or.inl ⟨rfl, by norm_num⟩
  exact ⟨h.1.mpr ⟨("glucose", 305), by simp, hb⟩, h.2.1 ("glucose", 305) (by simp) hb⟩

theorem mem_detectedCategories (s : String) (cat : String) :
    cat ∈ detectedCategories s ↔
      ∃ kws, (cat, kws) ∈ common_symptoms ∧
        kws.any (fun kw => isSubstr kw.data (pyLower s).data) = true := by
  rw [detectedCategories, List.mem_filterMap]
  constructor
  · rintro ⟨ck, hmem, heq⟩
    by_cases hc : ck.2.any (fun kw => isSubstr kw.data (pyLower s).data) = true
    · rw [if_pos hc] at heq
      obtain rfl : ck.1 = cat := Option.some.inj heq
      exact ⟨ck.2, hmem, hc⟩
    · rw [if_neg hc] at heq
      exact absurd heq (Option.noConfusion)
  · rintro ⟨kws, hmem, hany⟩
    exact ⟨(cat, kws), hmem, by simp [hany]⟩

theorem common_symptoms_keys_unique (p q : String × List String)
    (hp : p ∈ common_symptoms) (hq : q ∈ common_symptoms) (hpq : p.1 = q.1) : p.2 = q.2 := by
  simp only [common_symptoms, List.mem_cons, List.not_mem_nil, or_false] at hp hq
  rcases hp with hp|hp|hp|hp|hp|hp <;> rcases hq with hq|hq|hq|hq|hq|hq <;>
    subst hp <;> subst hq <;> simp_all

/-- C6, counterexample: the text weakness contains the fatigue keyword
weak as a substring but not as a whitespace token, and the analyzer does
report fatigue as detected, against the claim's token-based reading. -/
theorem analyze_symptoms_token_claim_cex :
    "fatigue" ∈ detectedCategories "weakness" ∧
    "fatigue" ∉ tokenDetectedCategories "weakness" := by
  constructor
  · decide
  · decide

/-- C6 amended: for symptom text that is not blank, a category of the
fixed table is reported as detected iff one of its keywords occurs as a
substring of the lowercased text (Python in on strings; the tokenized
word list the source builds is never consulted). -/
theorem analyze_symptoms_detection_spec (s : String) (hs : pyStrip pySpace s.data ≠ [])
    (cat : String) (kws : List String) (hck : (cat, kws) ∈ common_symptoms) :
    (analyze_symptoms s).symptoms_provided = true ∧
    (cat ∈ (analyze_symptoms s).detected_categories ↔
      ∃ kw ∈ kws, isSubstr kw.data (pyLower s).data = true) := by
  constructor
  · simp [analyze_symptoms, hs]
  · have hd : (analyze_symptoms s).detected_categories = detectedCategories s := by
      rw [analyze_symptoms, if_neg hs]
    rw [hd, mem_detectedCategories]
    constructor
    · rintro ⟨kws2, hmem2, hany⟩
      have : kws2 = kws := common_symptoms_keys_unique (cat, kws2) (cat, kws) hmem2 hck rfl
      subst this
      exact List.any_eq_true.mp hany
    · rintro ⟨kw, hkw, hsub⟩
      exact ⟨kws, hck, List.any_eq_true.mpr ⟨kw, hkw, hsub⟩⟩

/-- Witness for the amended symptom claim: tired is detected as fatigue. -/
theorem analyze_symptoms_detection_spec_witness :
    (analyze_symptoms "tired").symptoms_provided = true ∧
    "fatigue" ∈ (analyze_symptoms "tired").detected_categories := by
  have h := analyze_symptoms_detection_spec "tired" (by decide) "fatigue"
    ["tired", "fatigue", "exhausted", "weak"] (by simp [common_symptoms])
  exact ⟨h.1, h.2.mpr ⟨"tired", by simp, by decide⟩⟩

theorem pyStrip_nil_of_all (l : List Char) (h : ∀ c ∈ l, pySpace c = true) :
    pyStrip pySpace l = [] := by
  rw [pyStrip]
  have h1 : l.dropWhile pySpace = [] := List.dropWhile_eq_nil_iff.mpr h
  rw [h1]
  rfl

/-- C10: symptom text made of whitespace only (the empty text included)
makes pillar 2 behave as if no symptoms were given, whatever the
biomarker input: the no-symptoms note, no correlations, and a symptom
analysis with symptoms_provided false. -/
theorem correlate_whitespace_spec (d : List (String × ℚ)) (ctx : Ctx) (s : String)
    (hs : ∀ c ∈ s.data, pySpace c = true) :
    (correlate_symptoms_biomarkers d s ctx).note =
      some "No symptoms provided for correlation analysis" ∧
    (correlate_symptoms_biomarkers d s ctx).correlations = [] ∧
    (correlate_symptoms_biomarkers d s ctx).symptom_analysis = { symptoms_provided := false } := by
  have h0 : pyStrip pySpace s.data = [] := pyStrip_nil_of_all s.data hs
  simp [correlate_symptoms_biomarkers, analyze_symptoms, h0]

/-- Witness for the whitespace-symptoms claim at a one-space text. -/
theorem correlate_whitespace_spec_witness :
    (correlate_symptoms_biomarkers [("glucose", 110)] " " []).note =
      some "No symptoms provided for correlation analysis" ∧
    (correlate_symptoms_biomarkers [("glucose", 110)] " " []).correlations = [] ∧
    (correlate_symptoms_biomarkers [("glucose", 110)] " " []).symptom_analysis =
      { symptoms_provided := false } :=
  correlate_whitespace_spec [("glucose", 110)] [] " " (by decide)

/-- C8: on an empty biomarker map with empty symptom and lifestyle text,
whatever the knowledge base holds: pillar 1 lists no biomarkers, pillar 3
has no risk assessments and overall risk low, and pillar 4 has exactly
the five baseline lifestyle items and the two baseline monitoring items,
no immediate actions, and no consultation flag. -/
theorem analyze_empty_report_spec (kb : MedicalKnowledgeBase) :
    (analyze_health_report kb [] "" "").pillar_1_biomarker_interpretation.biomarkers = [] ∧
    (analyze_health_report kb [] "" "").pillar_3_predictive_insights.risk_assessments = [] ∧
    (analyze_health_report kb [] "" "").pillar_3_predictive_insights.overall_risk_level = "low" ∧
    (analyze_health_report kb [] "" "").pillar_4_actionable_recommendations.immediate_actions = [] ∧
    (analyze_health_report kb [] "" "").pillar_4_actionable_recommendations.medical_consultation_required
      = false ∧
    (analyze_health_report kb [] "" "").pillar_4_actionable_recommendations.lifestyle_recommendations =
      ["Maintain a balanced diet rich in fruits, vegetables, and whole grains",
       "Engage in regular physical activity (at least 150 minutes per week)",
       "Maintain a healthy weight",
       "Avoid smoking and limit alcohol consumption",
       "Get adequate sleep (7-9 hours per night)"] ∧
    (analyze_health_report kb [] "" "").pillar_4_actionable_recommendations.monitoring_recommendations =
      ["Schedule regular follow-up lab tests as recommended by your healthcare provider",
       "Keep a record of your lab results to track trends over time"] :=
  ⟨rfl, rfl, rfl, rfl, rfl, rfl, rfl⟩

theorem dget_map_replace_ne {α : Type} (d : List (String × α)) (k : String) (v : α) (k' : String)
    (hk : ¬ k' = k) :
    dget? (d.map (fun kv => if kv.1 == k then (k, v) else kv)) k' = dget? d k' := by
  induction d with
  | nil => rfl
  | cons a d ih =>
    simp only [dget?] at ih ⊢
    rw [List.map_cons]
    by_cases ha : a.1 = k
    · have h1 : ((k, v).1 == k') = false := beq_eq_false_iff_ne.mpr (fun hh => hk hh.symm)
      have h2 : (a.1 == k') = false := beq_eq_false_iff_ne.mpr (fun hh => hk (ha.symm.trans hh).symm)
      rw [show (if (a.1 == k) = true then (k, v) else a) = (k, v) from by simp [ha]]
      simp only [List.find?_cons, h1, h2]
      exact ih
    · rw [show (if (a.1 == k) = true then (k, v) else a) = a from by simp [ha]]
      cases hfa : (a.1 == k') with
      | true => simp only [List.find?_cons, hfa]
      | false =>
        simp only [List.find?_cons, hfa]
        exact ih

theorem dget_map_replace_eq {α : Type} (d : List (String × α)) (k : String) (v : α)
    (hany : d.any (fun kv => kv.1 == k) = true) :
    dget? (d.map (fun kv => if kv.1 == k then (k, v) else kv)) k = some v := by
  induction d with
  | nil => simp at hany
  | cons a d ih =>
    simp only [dget?] at ih ⊢
    rw [List.map_cons]
    by_cases ha : a.1 = k
    · rw [show (if (a.1 == k) = true then (k, v) else a) = (k, v) from by simp [ha]]
      simp only [List.find?_cons, show ((k, v).1 == k) = true from by simp]
      rfl
    · simp only [List.any_cons, Bool.or_eq_true] at hany
      rcases hany with hany | hany
      · exact absurd (by simpa using hany) ha
      · rw [show (if (a.1 == k) = true then (k, v) else a) = a from by simp [ha]]
        simp only [List.find?_cons, show (a.1 == k) = false from by simp [ha]]
        exact ih hany

theorem dget_append_single_ne {α : Type} (d : List (String × α)) (k : String) (v : α) (k' : String)
    (hk : ¬ k' = k) :
    dget? (d ++ [(k, v)]) k' = dget? d k' := by
  have hkk : (k == k') = false := beq_eq_false_iff_ne.mpr (fun hh => hk hh.symm)
  simp [dget?, List.find?_append, List.find?, hkk]

theorem dget_append_single_eq {α : Type} (d : List (String × α)) (k : String) (v : α)
    (hany : d.any (fun kv => kv.1 == k) = false) :
    dget? (d ++ [(k, v)]) k = some v := by
  have hnone : d.find? (fun kv => kv.1 == k) = none := by
    rw [List.find?_eq_none]
    exact fun x hx => (List.any_eq_false.mp hany) x hx
  simp [dget?, List.find?_append, hnone, List.find?]

theorem dget_dset {α : Type} (d : List (String × α)) (k : String) (v : α) (k' : String) :
    dget? (dset d k v) k' = if k' = k then some v else dget? d k' := by
  rw [dset]
  by_cases hk : k' = k
  · subst hk
    rw [if_pos rfl]
    cases hany : d.any (fun kv => kv.1 == k') with
    | false =>
      rw [if_neg (by simp)]
      exact dget_append_single_eq d k' v hany
    | true =>
      rw [if_pos rfl]
      exact dget_map_replace_eq d k' v hany
  · rw [if_neg hk]
    cases hany : d.any (fun kv => kv.1 == k) with
    | false =>
      rw [if_neg (by simp)]
      exact dget_append_single_ne d k v k' hk
    | true =>
      rw [if_pos rfl]
      exact dget_map_replace_ne d k v k' hk

theorem dget_append {α : Type} (l1 l2 : List (String × α)) (k : String) :
    dget? (l1 ++ l2) k = (dget? l1 k).or (dget? l2 k) := by
  rw [dget?, dget?, dget?, List.find?_append]
  cases l1.find? (fun kv => kv.1 == k) <;> simp

theorem parse_lines_eq_foldl_records (lines : List (List Char)) (d0 : List (String × String)) :
    lines.foldl
        (fun d line =>
          match parseLine? line with
          | some kv => dset d kv.1 kv.2
          | none => d) d0 =
      (lines.filterMap parseLine?).foldl (fun d kv => dset d kv.1 kv.2) d0 := by
  induction lines generalizing d0 with
  | nil => rfl
  | cons l ls ih =>
    cases hpl : parseLine? l with
    | none => simp only [List.foldl_cons, List.filterMap_cons, hpl]; exact ih d0
    | some kv => simp only [List.foldl_cons, List.filterMap_cons, hpl]; exact ih (dset d0 kv.1 kv.2)

theorem dget_foldl_dset (records : List (String × String)) (d0 : List (String × String)) (k : String) :
    dget? (records.foldl (fun d kv => dset d kv.1 kv.2) d0) k =
      (dget? records.reverse k).or (dget? d0 k) := by
  induction records generalizing d0 with
  | nil => simp [dget?]
  | cons r rs ih =>
    rw [List.foldl_cons, ih (dset d0 r.1 r.2), List.reverse_cons, dget_append, Option.or_assoc]
    congr 1
    rw [dget_dset]
    by_cases hk : k = r.1
    · subst hk
      simp [dget?, List.find?]
    · have hb : (r.1 == k) = false := beq_eq_false_iff_ne.mpr (fun hh => hk hh.symm)
      simp [dget?, List.find?, hb, hk]

/-- C9 amended: looking a key up after ingesting a reference-range source
returns the value of the last line recording that key, where a line
records a pair exactly when it contains both a colon and at least one
double-quote character (parseLine?): key is the text before the first
colon stripped of whitespace and quotes, value the text after it stripped
of whitespace, quotes and commas (so a trailing comma is tolerated, but a
fully quote-free line is ignored rather than recorded); all other lines
are ignored, and later lines win over earlier ones. -/
theorem parse_reference_ranges_spec (content : String) (key : String) :
    get_biomarker_reference_range (parse_reference_ranges [] content) key =
      dget? (lineRecords content).reverse key := by
  rw [get_biomarker_reference_range, parse_reference_ranges, lineRecords,
      parse_lines_eq_foldl_records, dget_foldl_dset]
  simp [dget?]

/-- C9, counterexample: a line of the claimed key-value shape with the
optional quotes omitted entirely is ignored by the parser (the guard
requires a quote character), so the key is not retrievable afterward,
against the claim's value of 70-99. -/
theorem parse_reference_ranges_claim_cex :
    get_biomarker_reference_range (parse_reference_ranges [] "glucose: 70-99") "glucose" = none ∧
    parse_reference_ranges [] "glucose: 70-99" = [] := by
  exact ⟨rfl, rfl⟩
